import Mathlib

/-!
Shallow embedding of the `logh` leveled-logging package (Go) in Lean 4.

The embedding models the per-logger state machine of `logh.go`:
level filtering (`printCommon`), amortized rotation-size checking
(`checkSizeAndRotate`), startup slot selection (`initializeRotation`),
file opening (`openFileAndInitialize`), construction (`New`) and
`Shutdown`.

Modelling decisions:
- Go `int` / `int64` become `Int`; `LoghLevel` is an `Int`.
- The OS file system visible to one logger is a `World`: the contents of
  the two rotation files `filePath.0` / `filePath.1` (`none` = the file
  does not exist), plus a trace of file-close events (an `os.File.Close`
  is an observable OS action).  File size is the content's length
  (contents are ASCII in this model, so Go byte length = Lean length).
- An open `*os.File` is a `Handle`: its target (a rotation slot, or the
  process stdout used as `defaultOutput`) and a `closed` flag; Go's
  `os.File.Close` returns an error when called on an already-closed file,
  which the model reproduces.
- `os.Stat` failure is modelled as file absence; `os.OpenFile` failure is
  an environment input `openFails` (permission problems etc. are decided
  by the OS, not by the logger's state).
- The per-level `[]*log.Logger` array is modelled by `loggers : Option
  Target`: `some t` means the array is populated and every entry writes
  to target `t` (all entries are created from the same `l.file` by
  `initializeLoggers`); `none` means the array is absent or its entries
  were set to nil by `Shutdown`.  Indexing a populated array is safe for
  `0 <= level < len(levels)` since the array has length `len(levels)`;
  a negative index or a nil entry is a Go runtime panic, which the
  emit result records in a `panicked` flag.
- The registry `Map` is modelled per-name: `New` receives the previous
  logger registered under the name (`Option Logger`) and returns the
  entry after the call.
- The timestamp/source-location prefix rendered by the `log` package is
  delegated formatting and is not modelled; an emitted line is
  `label ++ ": " ++ msg`.
-/

namespace Logh

/-- Where bytes written through an open handle go: one of the two
rotation files, or the process standard output (`defaultOutput`). -/
inductive Target where
  | stdout : Target
  | fileSlot : Nat → Target
deriving DecidableEq, Repr

/-- An open `*os.File`: its target and whether `Close` was already
called on it. -/
structure Handle where
  target : Target
  closed : Bool
deriving DecidableEq, Repr

/-- The OS state visible to one logger: contents of the two rotation
files (`none` = file does not exist) and the trace of close events. -/
structure World where
  slot0 : Option String
  slot1 : Option String
  closedEvents : List Target
deriving DecidableEq, Repr

/-- Content of rotation file `filePath.<i>` (slots other than 0 are
file 1; only 0 and 1 occur, `maxRotations = 2`). -/
def World.get (w : World) (i : Nat) : Option String :=
  if i = 0 then w.slot0 else w.slot1

/-- Replace the content of rotation file `filePath.<i>`. -/
def World.set (w : World) (i : Nat) (v : Option String) : World :=
  if i = 0 then { w with slot0 := v } else { w with slot1 := v }

/-- `os.File.Close`: succeeds and records a close event the first time;
returns an error if the file has already been closed. -/
def Handle.close (h : Handle) (w : World) : Handle × World × Option String :=
  if h.closed then
    (h, w, some "file already closed")
  else
    ({ h with closed := true },
     { w with closedEvents := w.closedEvents ++ [h.target] }, none)

/-- This package has only been tested with 2 rotations. -/
def maxRotations : Nat := 2

/-- The default level set provided by the package. -/
def DefaultLevels : List String := ["debug", "info", "warning", "audit", "error"]

/-- The `Logger` struct of `logh.go` (the `flags` field is carried but,
being delegated formatting, never read by the modelled core). -/
structure Logger where
  checkLogSize : Int
  flags : Int
  level : Int
  levels : List String
  levelMaxWidth : Nat
  loggers : Option Target
  file : Option Handle
  filePath : String
  maxLogSize : Int
  rotation : Nat
  writesSinceCheckRotate : Int
deriving DecidableEq, Repr

/-- `Shutdown`: nils the per-level logger entries, then closes the file
handle if one is present, returning a wrapped error when the close
fails.  The `file` field is not cleared. -/
def Logger.Shutdown (l : Logger) (w : World) : Logger × World × Option String :=
  let l := { l with loggers := none }
  match l.file with
  | none => (l, w, none)
  | some h =>
    let (h', w', e) := h.close w
    let l := { l with file := some h' }
    match e with
    | some msg => (l, w', some ("closing log file, error:" ++ msg))
    | none => (l, w', none)

/-- `initializeLoggers`: rebuilds the per-level `log.Logger` array; every
entry writes to the current file handle's target. -/
def Logger.initializeLoggers (l : Logger) : Logger :=
  { l with loggers := l.file.map Handle.target }

/-- `openFileAndInitialize`: resets the write counter; an empty file path
selects the default output stream; otherwise the running logger (if any)
is shut down, the current rotation slot's file is opened with
`O_APPEND|O_CREATE|O_WRONLY` (creating it empty when absent, keeping its
content when present), and on open failure the default output stream is
used instead and the failure reported.  Finally the per-level loggers
are rebuilt. -/
def Logger.openFileAndInitialize (openFails : Bool) (l : Logger) (w : World) :
    Logger × World × Option String :=
  let l := { l with writesSinceCheckRotate := 0 }
  if l.filePath = "" then
    let l := { l with file := some ⟨Target.stdout, false⟩ }
    (l.initializeLoggers, w, none)
  else
    let (l, w, errors) :=
      match l.file with
      | some _ =>
        match l.Shutdown w with
        | (l', w', some e) => (l', w', some ("closing log file, error:" ++ e))
        | (l', w', none) => (l', w', none)
      | none => (l, w, (none : Option String))
    if openFails then
      let l := { l with file := some ⟨Target.stdout, false⟩ }
      (l.initializeLoggers, w,
       some ((errors.getD "<nil>") ++ ", opening log file, error:open failed"))
    else
      let w :=
        match w.get l.rotation with
        | none => w.set l.rotation (some "")
        | some _ => w
      let l := { l with file := some ⟨Target.fileSlot l.rotation, false⟩ }
      (l.initializeLoggers, w, errors)

/-- `checkSizeAndRotate`: no-op for an empty file path; otherwise resets
the write counter, stats the active slot's file (stat failure = file
absent, reported as an error), and if its size strictly exceeds
`maxLogSize`, advances the rotation slot cyclically, removes any file in
the new slot (a does-not-exist condition is success) and reopens. -/
def Logger.checkSizeAndRotate (openFails : Bool) (l : Logger) (w : World) :
    Logger × World × Option String :=
  if l.filePath = "" then
    (l, w, none)
  else
    let l := { l with writesSinceCheckRotate := 0 }
    match w.get l.rotation with
    | none => (l, w, some "stat error: file does not exist")
    | some content =>
      if (content.length : Int) > l.maxLogSize then
        let r := if l.rotation + 1 ≥ maxRotations then 0 else l.rotation + 1
        let l := { l with rotation := r }
        let w := w.set r none
        l.openFileAndInitialize openFails w
      else
        (l, w, none)

/-- The scan of `initializeRotation` over the slot indices `0, ...,
maxRotations - 1` in order: the first slot whose file does not exist or
is strictly smaller than `maxLogSize`; `none` when every slot's file is
at/over the max. -/
def firstAvailableRotation (maxLogSize : Int) (w : World) : List Nat → Option Nat
  | [] => none
  | i :: rest =>
    match w.get i with
    | none => some i
    | some c =>
      if (c.length : Int) < maxLogSize then some i
      else firstAvailableRotation maxLogSize w rest

/-- `initializeRotation`: picks the first available rotation slot; when
all slots are at/over `maxLogSize`, clears slot 0's file and uses slot 0. -/
def Logger.initializeRotation (l : Logger) (w : World) : Logger × World :=
  match firstAvailableRotation l.maxLogSize w (List.range maxRotations) with
  | some i => ({ l with rotation := i }, w)
  | none => ({ l with rotation := 0 }, w.set 0 none)

/-- The `levelMaxWidth` computation of `New`. -/
def levelMaxWidthCalc (levels : List String) : Nat :=
  levels.foldl (fun m v => if v.length > m then v.length else m) 0

/-- `New`: shuts down and deletes any logger registered under the name,
validates the level index, selects the initial rotation slot and opens
it; on any error the logger is not registered.  Returns the registry
entry for the name after the call, the new world, and the error. -/
def New (prev : Option Logger) (filePath : String) (levels : List String)
    (level : Int) (flags : Int) (checkLogSize : Int) (maxLogSize : Int)
    (openFails : Bool) (w : World) : Option Logger × World × Option String :=
  let w :=
    match prev with
    | some p => (p.Shutdown w).2.1
    | none => w
  let lg : Logger :=
    { checkLogSize := checkLogSize, flags := flags, level := level,
      levels := levels, levelMaxWidth := 0, loggers := none, file := none,
      filePath := filePath, maxLogSize := maxLogSize, rotation := 0,
      writesSinceCheckRotate := 0 }
  if level < 0 ∨ (levels.length : Int) ≤ level then
    (none, w, some "input level was outside range")
  else
    let (lg, w) := lg.initializeRotation w
    match lg.openFileAndInitialize openFails w with
    | (_, w, some e) => (none, w, some e)
    | (lg, w, none) =>
      let lg := { lg with levelMaxWidth := levelMaxWidthCalc lg.levels }
      (some lg, w, none)

/-- Append a written line to the target file's content; a write to
stdout, or through an unlinked file, does not change the rotation files. -/
def World.writeLine (w : World) (t : Target) (line : String) : World :=
  match t with
  | Target.stdout => w
  | Target.fileSlot s =>
    match w.get s with
    | some c => w.set s (some (c ++ line))
    | none => w

/-- The observable outcome of one `Printf`/`Println` call. -/
structure EmitResult where
  logger : Option Logger
  world : World
  stdoutDiag : Option String
  written : Option (Target × String)
  panicked : Bool
deriving DecidableEq, Repr

/-- The tail of `printCommon` (lines 263-269 of `logh.go`): a logger
with an empty file path returns at once; otherwise the write counter is
incremented and, when it reaches `checkLogSize`, the size check runs
with its error ignored. -/
def rotationBookkeeping (openFails : Bool) (l : Logger) (w : World)
    (written : Option (Target × String)) : EmitResult :=
  if l.filePath = "" then
    ⟨some l, w, none, written, false⟩
  else
    let l := { l with writesSinceCheckRotate := l.writesSinceCheckRotate + 1 }
    if l.writesSinceCheckRotate ≥ l.checkLogSize then
      let (l, w, _) := l.checkSizeAndRotate openFails w
      ⟨some l, w, none, written, false⟩
    else
      ⟨some l, w, none, written, false⟩

/-- `printCommon`, the shared body of `Printf` and `Println`: nil
receiver returns immediately; a level at/above `len(levels)` prints a
range diagnostic and returns; a level at/above the threshold writes one
line `label ++ ": " ++ msg` through the per-level logger (a negative
index or a nil entry panics); finally the rotation bookkeeping runs. -/
def printCommon (openFails : Bool) (lopt : Option Logger) (level : Int)
    (msg : String) (w : World) : EmitResult :=
  match lopt with
  | none => ⟨none, w, none, none, false⟩
  | some l =>
    if (l.levels.length : Int) ≤ level then
      ⟨some l, w,
       some ("input level was outside range, level:" ++ toString level), none,
       false⟩
    else
      let step :=
        if l.level ≤ level then
          if level < 0 then
            (none, w, true)
          else
            match l.loggers with
            | none => (none, w, true)
            | some t =>
              let line := (l.levels.getD level.toNat "") ++ ": " ++ msg
              (some (t, line), w.writeLine t line, false)
        else
          ((none : Option (Target × String)), w, false)
      match step with
      | (written, w, true) => ⟨some l, w, none, written, true⟩
      | (written, w, false) => rotationBookkeeping openFails l w written

/-- `Printf` delegates to `printCommon`. -/
def Logger.Printf (openFails : Bool) (lopt : Option Logger) (level : Int)
    (msg : String) (w : World) : EmitResult :=
  printCommon openFails lopt level msg w

/-- `Println` delegates to `printCommon`. -/
def Logger.Println (openFails : Bool) (lopt : Option Logger) (level : Int)
    (msg : String) (w : World) : EmitResult :=
  printCommon openFails lopt level msg w

/-! ## Concrete fixtures used by witnesses and counterexamples -/

/-- An empty world: neither rotation file exists, no close events. -/
def emptyWorld : World := ⟨none, none, []⟩

/-- A freshly constructed file-backed logger (as produced by
`New none "p" DefaultLevels 1 0 10 1000 false emptyWorld`). -/
def sampleLogger : Logger :=
  { checkLogSize := 10, flags := 0, level := 1, levels := DefaultLevels,
    levelMaxWidth := 7, loggers := some (Target.fileSlot 0),
    file := some ⟨Target.fileSlot 0, false⟩, filePath := "p",
    maxLogSize := 1000, rotation := 0, writesSinceCheckRotate := 0 }

/-! ## Helper lemmas -/

/-- `initializeRotation` only chooses the rotation slot; every other
field of the logger is unchanged. -/
theorem initializeRotation_fst (l : Logger) (w : World) :
    (l.initializeRotation w).1 =
      { l with rotation := (l.initializeRotation w).1.rotation } := by
  unfold Logger.initializeRotation
  cases firstAvailableRotation l.maxLogSize w (List.range maxRotations) <;> rfl

/-- When the OS open call fails, `openFileAndInitialize` on a file-backed
logger reports an error. -/
theorem openFileAndInitialize_openFails_err (l : Logger) (w : World)
    (hfp : l.filePath ≠ "") :
    (Logger.openFileAndInitialize true l w).2.2.isSome = true := by
  rcases l with ⟨ck, fl, lv, ls, mw, lgs, f, fp, ms, rot, wr⟩
  simp only at hfp
  rcases f with _ | ⟨t, c⟩
  · simp [Logger.openFileAndInitialize, hfp]
  · rcases c <;>
      simp [Logger.openFileAndInitialize, Logger.Shutdown, Handle.close,
        Logger.initializeLoggers, hfp]

/-- `openFileAndInitialize` only touches the write counter, the file
handle and the per-level loggers; the configuration fields and the
rotation slot are unchanged. -/
theorem openFileAndInitialize_fst_fields (of : Bool) (l : Logger) (w : World) :
    ((Logger.openFileAndInitialize of l w).1).level = l.level ∧
    ((Logger.openFileAndInitialize of l w).1).levels = l.levels ∧
    ((Logger.openFileAndInitialize of l w).1).filePath = l.filePath ∧
    ((Logger.openFileAndInitialize of l w).1).checkLogSize = l.checkLogSize ∧
    ((Logger.openFileAndInitialize of l w).1).maxLogSize = l.maxLogSize ∧
    ((Logger.openFileAndInitialize of l w).1).rotation = l.rotation ∧
    ((Logger.openFileAndInitialize of l w).1).writesSinceCheckRotate = 0 := by
  rcases l with ⟨ck, fl, lv, ls, mw, lgs, f, fp, ms, rot, wr⟩
  by_cases hfp : fp = ""
  · simp [Logger.openFileAndInitialize, Logger.initializeLoggers, hfp]
  · rcases f with _ | ⟨t, c⟩
    · rcases of <;>
        rcases hw : World.get w rot <;>
          simp [Logger.openFileAndInitialize, Logger.initializeLoggers, hfp, hw]
    · rcases of <;> rcases c <;>
        rcases hw : World.get w rot <;>
          simp [Logger.openFileAndInitialize, Logger.Shutdown, Handle.close,
            Logger.initializeLoggers, hfp, hw]

/-- After `checkSizeAndRotate` on a file-backed logger, the write
counter is zero in every branch. -/
theorem checkSizeAndRotate_counter (of : Bool) (l : Logger) (w : World)
    (hfp : l.filePath ≠ "") :
    ((Logger.checkSizeAndRotate of l w).1).writesSinceCheckRotate = 0 := by
  unfold Logger.checkSizeAndRotate
  rw [if_neg hfp]
  dsimp only
  rcases hw : World.get w l.rotation with _ | c
  · rfl
  · dsimp only
    by_cases hsz : (c.length : Int) > l.maxLogSize
    · rw [if_pos hsz]
      exact (openFileAndInitialize_fst_fields of _ _).2.2.2.2.2.2
    · rw [if_neg hsz]

/-- The bookkeeping tail on a logger with an empty file path changes
nothing. -/
theorem rotationBookkeeping_empty (of : Bool) (l : Logger) (w : World)
    (written : Option (Target × String)) (hfp : l.filePath = "") :
    rotationBookkeeping of l w written = ⟨some l, w, none, written, false⟩ := by
  unfold rotationBookkeeping
  rw [if_pos hfp]

/-- The bookkeeping tail never panics, never prints a diagnostic and
passes the written line through unchanged. -/
theorem rotationBookkeeping_passthrough (of : Bool) (l : Logger) (w : World)
    (written : Option (Target × String)) :
    (rotationBookkeeping of l w written).written = written ∧
    (rotationBookkeeping of l w written).panicked = false ∧
    (rotationBookkeeping of l w written).stdoutDiag = none := by
  unfold rotationBookkeeping
  split
  · exact ⟨rfl, rfl, rfl⟩
  · dsimp only
    split
    · rcases Logger.checkSizeAndRotate of
        { l with writesSinceCheckRotate := l.writesSinceCheckRotate + 1 } w
        with ⟨l2, w2, e⟩
      exact ⟨rfl, rfl, rfl⟩
    · exact ⟨rfl, rfl, rfl⟩

/-- The bookkeeping tail on a file-backed logger: the write counter is
incremented and, in the same call in which it reaches `checkLogSize`,
reset to zero. -/
theorem rotationBookkeeping_counter (of : Bool) (l : Logger) (w : World)
    (written : Option (Target × String)) (hfp : l.filePath ≠ "") :
    ∃ l2, (rotationBookkeeping of l w written).logger = some l2 ∧
      l2.writesSinceCheckRotate =
        if l.writesSinceCheckRotate + 1 ≥ l.checkLogSize then 0
        else l.writesSinceCheckRotate + 1 := by
  unfold rotationBookkeeping
  rw [if_neg hfp]
  by_cases hc : l.writesSinceCheckRotate + 1 ≥ l.checkLogSize
  · simp only [if_pos hc]
    rcases hR : Logger.checkSizeAndRotate of
        { l with writesSinceCheckRotate := l.writesSinceCheckRotate + 1 } w
        with ⟨l2, w2, e⟩
    have hz := checkSizeAndRotate_counter of
      { l with writesSinceCheckRotate := l.writesSinceCheckRotate + 1 } w hfp
    rw [hR] at hz
    exact ⟨l2, rfl, hz⟩
  · simp only [if_neg hc]
    exact ⟨_, rfl, rfl⟩

/-- `printCommon` on an in-range severity with a populated per-level
logger array: the range branch and the panic branches are dead, one
line is written when the filter passes, and control falls through to
the bookkeeping tail. -/
theorem printCommon_in_range (openFails : Bool) (l : Logger) (t : Target)
    (level : Int) (msg : String) (w : World)
    (hlo : 0 ≤ level) (hhi : level < (l.levels.length : Int))
    (hlog : l.loggers = some t) :
    printCommon openFails (some l) level msg w =
      if l.level ≤ level then
        rotationBookkeeping openFails l
          (w.writeLine t (l.levels.getD level.toNat "" ++ ": " ++ msg))
          (some (t, l.levels.getD level.toNat "" ++ ": " ++ msg))
      else rotationBookkeeping openFails l w none := by
  have hnot : ¬ ((l.levels.length : Int) ≤ level) := not_le.mpr hhi
  have hneg : ¬ (level < 0) := not_lt.mpr hlo
  simp only [printCommon]
  rw [if_neg hnot]
  by_cases hpass : l.level ≤ level
  · rw [if_pos hpass, if_pos hpass, if_neg hneg, hlog]
  · rw [if_neg hpass, if_neg hpass]

/-- `printCommon` on a negative severity against a logger whose
threshold is nonnegative: the range check passes it through, the filter
rejects it before the per-level array is indexed, and only the
bookkeeping tail runs. -/
theorem printCommon_negative (openFails : Bool) (l : Logger) (level : Int)
    (msg : String) (w : World) (hneg : level < 0) (hthr : 0 ≤ l.level) :
    printCommon openFails (some l) level msg w =
      rotationBookkeeping openFails l w none := by
  have hlen : (0 : Int) ≤ (l.levels.length : Int) := Int.natCast_nonneg _
  have hnot : ¬ ((l.levels.length : Int) ≤ level) := by omega
  have hnopass : ¬ (l.level ≤ level) := by omega
  simp only [printCommon]
  rw [if_neg hnot]
  rw [if_neg hnopass]

theorem World.get_zero (w : World) : w.get 0 = w.slot0 := rfl

theorem World.get_one (w : World) : w.get 1 = w.slot1 := rfl

theorem World.set_zero (w : World) (v : Option String) :
    w.set 0 v = { w with slot0 := v } := rfl

theorem World.set_one (w : World) (v : Option String) :
    w.set 1 v = { w with slot1 := v } := rfl

/-- Opening for a logger with no file handle yet (fresh construction)
when the slot's file does not exist: the file is created empty. -/
theorem openFileAndInitialize_fresh_absent (l : Logger) (w : World)
    (hfp : l.filePath ≠ "") (hfile : l.file = none)
    (hget : w.get l.rotation = none) :
    Logger.openFileAndInitialize false l w =
      ({ l with writesSinceCheckRotate := 0,
                loggers := some (Target.fileSlot l.rotation),
                file := some ⟨Target.fileSlot l.rotation, false⟩ },
       w.set l.rotation (some ""), none) := by
  rcases l with ⟨ck, fl, lv, ls, mw, lgs, f, fp, ms, rot, wr⟩
  simp only at hfp hfile hget
  subst hfile
  simp [Logger.openFileAndInitialize, Logger.initializeLoggers, hfp, hget]

/-- Opening for a logger with no file handle yet (fresh construction)
when the slot's file exists: append mode leaves its content intact. -/
theorem openFileAndInitialize_fresh_present (l : Logger) (w : World)
    (c : String) (hfp : l.filePath ≠ "") (hfile : l.file = none)
    (hget : w.get l.rotation = some c) :
    Logger.openFileAndInitialize false l w =
      ({ l with writesSinceCheckRotate := 0,
                loggers := some (Target.fileSlot l.rotation),
                file := some ⟨Target.fileSlot l.rotation, false⟩ },
       w, none) := by
  rcases l with ⟨ck, fl, lv, ls, mw, lgs, f, fp, ms, rot, wr⟩
  simp only at hfp hfile hget
  subst hfile
  simp [Logger.openFileAndInitialize, Logger.initializeLoggers, hfp, hget]

/-- Re-registering a name: `New` with a previously registered logger
first shuts it down, then behaves like `New` on the resulting world. -/
theorem new_prev_shutdown (p : Logger) (filePath : String)
    (levels : List String) (level flags checkLogSize maxLogSize : Int)
    (openFails : Bool) (w : World) :
    New (some p) filePath levels level flags checkLogSize maxLogSize
        openFails w =
      New none filePath levels level flags checkLogSize maxLogSize openFails
        ((p.Shutdown w).2.1) :=
  rfl

/-! ## Theorems for the claims -/

/-- Claim C1: for a logger with a populated per-level array and a valid
severity index (`0 <= severity < len(levels)`), an emit call writes
exactly one line — the level label followed by the message — if and
only if the severity is at or above the current threshold, and writes
no line (and never panics) when it is below. -/
theorem emit_level_filter (openFails : Bool) (l : Logger) (t : Target)
    (level : Int) (msg : String) (w : World)
    (hlo : 0 ≤ level) (hhi : level < (l.levels.length : Int))
    (hlog : l.loggers = some t) :
    (l.level ≤ level →
      (printCommon openFails (some l) level msg w).written =
        some (t, l.levels.getD level.toNat "" ++ ": " ++ msg)) ∧
    (level < l.level →
      (printCommon openFails (some l) level msg w).written = none) ∧
    (printCommon openFails (some l) level msg w).panicked = false := by
  rw [printCommon_in_range openFails l t level msg w hlo hhi hlog]
  refine ⟨?_, ?_, ?_⟩
  · intro hpass
    rw [if_pos hpass]
    exact (rotationBookkeeping_passthrough _ _ _ _).1
  · intro hlt
    rw [if_neg (not_le.mpr hlt)]
    exact (rotationBookkeeping_passthrough _ _ _ _).1
  · by_cases hpass : l.level ≤ level
    · rw [if_pos hpass]
      exact (rotationBookkeeping_passthrough _ _ _ _).2.1
    · rw [if_neg hpass]
      exact (rotationBookkeeping_passthrough _ _ _ _).2.1

/-- Witness for C1: `sampleLogger` (threshold 1) emits the `info` line
at severity 1 and suppresses the `debug` line at severity 0. -/
theorem emit_level_filter_witness :
    (printCommon false (some sampleLogger) 1 "m" emptyWorld).written =
      some (Target.fileSlot 0, "info: m") ∧
    (printCommon false (some sampleLogger) 0 "m" emptyWorld).written = none :=
  ⟨(emit_level_filter false sampleLogger (Target.fileSlot 0) 1 "m" emptyWorld
      (by decide) (by decide) rfl).1 (by decide),
   (emit_level_filter false sampleLogger (Target.fileSlot 0) 0 "m" emptyWorld
      (by decide) (by decide) rfl).2.1 (by decide)⟩

/-- Claim C4: every emit call with an in-range severity on a
file-backed logger increments the writes-since-check counter
independently of the level filter, and the counter is reset to zero in
the same call in which it reaches `checkLogSize`, so after every emit
call it is strictly below the (positive) check interval; a logger with
an empty file path is left completely unchanged (no increment, no size
check). -/
theorem emit_counter_invariant (openFails : Bool) (l : Logger) (t : Target)
    (level : Int) (msg : String) (w : World)
    (hlo : 0 ≤ level) (hhi : level < (l.levels.length : Int))
    (hlog : l.loggers = some t) (hpos : 1 ≤ l.checkLogSize) :
    (l.filePath ≠ "" →
      ∃ l2, (printCommon openFails (some l) level msg w).logger = some l2 ∧
        l2.writesSinceCheckRotate =
          (if l.writesSinceCheckRotate + 1 ≥ l.checkLogSize then 0
           else l.writesSinceCheckRotate + 1) ∧
        l2.writesSinceCheckRotate < l.checkLogSize) ∧
    (l.filePath = "" →
      (printCommon openFails (some l) level msg w).logger = some l) := by
  rw [printCommon_in_range openFails l t level msg w hlo hhi hlog]
  constructor
  · intro hfp
    by_cases hpass : l.level ≤ level
    · rw [if_pos hpass]
      obtain ⟨l2, h1, h2⟩ := rotationBookkeeping_counter openFails l _ _ hfp
      refine ⟨l2, h1, h2, ?_⟩
      rw [h2]
      split <;> omega
    · rw [if_neg hpass]
      obtain ⟨l2, h1, h2⟩ := rotationBookkeeping_counter openFails l w none hfp
      refine ⟨l2, h1, h2, ?_⟩
      rw [h2]
      split <;> omega
  · intro hfp
    by_cases hpass : l.level ≤ level
    · rw [if_pos hpass, rotationBookkeeping_empty _ _ _ _ hfp]
    · rw [if_neg hpass, rotationBookkeeping_empty _ _ _ _ hfp]

/-- Witness for C4: one emit on `sampleLogger` (file-backed, counter 0,
interval 10) leaves the counter at 1, strictly below the interval. -/
theorem emit_counter_invariant_witness :
    sampleLogger.filePath ≠ "" ∧
    ∃ l2, (printCommon false (some sampleLogger) 1 "m" emptyWorld).logger =
        some l2 ∧
      l2.writesSinceCheckRotate =
        (if sampleLogger.writesSinceCheckRotate + 1 ≥
            sampleLogger.checkLogSize then 0
         else sampleLogger.writesSinceCheckRotate + 1) ∧
      l2.writesSinceCheckRotate < sampleLogger.checkLogSize :=
  ⟨by decide,
   (emit_counter_invariant false sampleLogger (Target.fileSlot 0) 1 "m"
      emptyWorld (by decide) (by decide) rfl (by decide)).1 (by decide)⟩

/-- Claim C10: a negative severity index against any constructed logger
(nonnegative threshold) neither panics nor writes a line — it fails the
range check's one-sided test and then the filter, never indexing the
per-level array — and when the logger is additionally file-backed, the
rotation bookkeeping still runs and increments (or resets at the
interval) the write counter. -/
theorem emit_negative_level (openFails : Bool) (l : Logger) (level : Int)
    (msg : String) (w : World) (hneg : level < 0) (hthr : 0 ≤ l.level) :
    (printCommon openFails (some l) level msg w).panicked = false ∧
    (printCommon openFails (some l) level msg w).written = none ∧
    (l.filePath ≠ "" →
      ∃ l2, (printCommon openFails (some l) level msg w).logger = some l2 ∧
        l2.writesSinceCheckRotate =
          (if l.writesSinceCheckRotate + 1 ≥ l.checkLogSize then 0
           else l.writesSinceCheckRotate + 1)) := by
  rw [printCommon_negative openFails l level msg w hneg hthr]
  have hp := rotationBookkeeping_passthrough openFails l w none
  exact ⟨hp.2.1, hp.1,
    fun hfp => rotationBookkeeping_counter openFails l w none hfp⟩

/-- Witness for C10: severity -1 on the file-backed `sampleLogger` does
not panic, writes nothing, and bumps the write counter. -/
theorem emit_negative_level_witness :
    (printCommon false (some sampleLogger) (-1) "m" emptyWorld).panicked =
      false ∧
    (printCommon false (some sampleLogger) (-1) "m" emptyWorld).written =
      none ∧
    ∃ l2, (printCommon false (some sampleLogger) (-1) "m"
        emptyWorld).logger = some l2 ∧
      l2.writesSinceCheckRotate =
        (if sampleLogger.writesSinceCheckRotate + 1 ≥
            sampleLogger.checkLogSize then 0
         else sampleLogger.writesSinceCheckRotate + 1) :=
  ⟨(emit_negative_level false sampleLogger (-1) "m" emptyWorld (by decide)
      (by decide)).1,
   (emit_negative_level false sampleLogger (-1) "m" emptyWorld (by decide)
      (by decide)).2.1,
   (emit_negative_level false sampleLogger (-1) "m" emptyWorld (by decide)
      (by decide)).2.2 (by decide)⟩

/-- Claim C9: for every severity and message, calling `Printf`/`Println`
(`printCommon`) on a nil logger returns without writing anything,
without touching the file system and without panicking. -/
theorem nil_receiver_emit_is_noop (openFails : Bool) (level : Int)
    (msg : String) (w : World) :
    printCommon openFails none level msg w = ⟨none, w, none, none, false⟩ :=
  rfl

/-- Claim C7: an emit call whose severity index is at or above the number
of level labels reports the out-of-range error (the diagnostic the call
prints) and is otherwise a no-op: no log line is written, the logger and
the file system are unchanged, and there is no panic. -/
theorem out_of_range_emit_reports_and_noops (openFails : Bool) (l : Logger)
    (level : Int) (msg : String) (w : World)
    (hge : (l.levels.length : Int) ≤ level) :
    (printCommon openFails (some l) level msg w).stdoutDiag =
      some ("input level was outside range, level:" ++ toString level) ∧
    (printCommon openFails (some l) level msg w).written = none ∧
    (printCommon openFails (some l) level msg w).logger = some l ∧
    (printCommon openFails (some l) level msg w).world = w ∧
    (printCommon openFails (some l) level msg w).panicked = false := by
  simp [printCommon, if_pos hge]

/-- Witness for C7: the out-of-range theorem applied to `sampleLogger`
at severity 7. -/
theorem out_of_range_emit_reports_and_noops_witness :
    (DefaultLevels.length : Int) ≤ 7 ∧
    (printCommon false (some sampleLogger) 7 "m" emptyWorld).written = none :=
  ⟨by decide,
   (out_of_range_emit_reports_and_noops false sampleLogger 7 "m" emptyWorld
     (by decide)).2.1⟩

/-- Claim C5 counterexample: `Shutdown` does not clear the `file` field,
so a second `Shutdown` closes the already-closed handle again and
returns a non-nil error — refuting, at the concrete `sampleLogger`, the
claim that a second `Shutdown` returns no error. -/
theorem shutdown_second_call_errors_counterexample :
    ((((sampleLogger.Shutdown emptyWorld).1).Shutdown
        (sampleLogger.Shutdown emptyWorld).2.1).2.2 =
      some "closing log file, error:file already closed") ∧
    (sampleLogger.Shutdown emptyWorld).2.2 = none :=
  ⟨rfl, rfl⟩

/-- Claim C5 (amended): for every logger holding an open (not yet
closed) file handle, the first `Shutdown` returns no error; the second
`Shutdown` does not panic but returns a "closing log file" error,
because the `file` field still holds the now-closed handle and closing
it again fails. -/
theorem shutdown_second_call_errors (l : Logger) (w : World) (h : Handle)
    (hfile : l.file = some h) (hopen : h.closed = false) :
    (l.Shutdown w).2.2 = none ∧
    (((l.Shutdown w).1).Shutdown (l.Shutdown w).2.1).2.2 =
      some "closing log file, error:file already closed" := by
  simp only [Logger.Shutdown, Handle.close, hfile, hopen]
  simp

/-- Witness for the amended C5: the theorem applied to `sampleLogger`. -/
theorem shutdown_second_call_errors_witness :
    sampleLogger.file = some ⟨Target.fileSlot 0, false⟩ ∧
    (sampleLogger.Shutdown emptyWorld).2.2 = none :=
  ⟨rfl,
   (shutdown_second_call_errors sampleLogger emptyWorld
     ⟨Target.fileSlot 0, false⟩ rfl rfl).1⟩

/-- Claim C6 counterexample: at a concrete input where opening the
selected rotation file fails during construction, `New` returns the
open error and registers no logger — refuting that construction does
not fail and that the logger is registered and usable. -/
theorem new_open_failure_not_registered_counterexample :
    (New none "p" DefaultLevels 0 0 10 1000 true emptyWorld).1 = none ∧
    (New none "p" DefaultLevels 0 0 10 1000 true emptyWorld).2.2 =
      some "<nil>, opening log file, error:open failed" :=
  ⟨rfl, rfl⟩

/-- Claim C6 (amended): if opening the selected rotation file fails
during construction, `openFileAndInitialize` falls back to the default
output stream and reports the failure, but `New` treats the reported
failure as fatal: it returns the error and the logger is not
registered (the non-fatal fallback takes effect only when
`openFileAndInitialize` runs during rotation, not during
construction). -/
theorem new_open_failure_not_registered (filePath : String)
    (levels : List String) (level flags checkLogSize maxLogSize : Int)
    (w : World) (hfp : filePath ≠ "")
    (h0 : 0 ≤ level) (h1 : level < (levels.length : Int)) :
    (New none filePath levels level flags checkLogSize maxLogSize true w).1 =
      none ∧
    (New none filePath levels level flags checkLogSize maxLogSize true
      w).2.2.isSome = true := by
  have hv : ¬ (level < 0 ∨ (levels.length : Int) ≤ level) := by
    push_neg
    exact ⟨h0, h1⟩
  simp only [New, if_neg hv]
  rcases hI : Logger.initializeRotation
      { checkLogSize := checkLogSize, flags := flags, level := level,
        levels := levels, levelMaxWidth := 0, loggers := none, file := none,
        filePath := filePath, maxLogSize := maxLogSize, rotation := 0,
        writesSinceCheckRotate := 0 } w with ⟨lgI, wI⟩
  have hlgI : lgI = (Logger.initializeRotation
      { checkLogSize := checkLogSize, flags := flags, level := level,
        levels := levels, levelMaxWidth := 0, loggers := none, file := none,
        filePath := filePath, maxLogSize := maxLogSize, rotation := 0,
        writesSinceCheckRotate := 0 } w).1 := by
    rw [hI]
  have hfpI : lgI.filePath = filePath := by
    rw [hlgI, initializeRotation_fst]
  dsimp only
  have hss := openFileAndInitialize_openFails_err lgI wI (by rw [hfpI]; exact hfp)
  rcases hO : Logger.openFileAndInitialize true lgI wI with ⟨lgO, wO, e⟩
  rw [hO] at hss
  rcases e with _ | e
  · simp at hss
  · exact ⟨rfl, rfl⟩

/-- Witness for the amended C6: the theorem applied at a concrete
failing-open construction. -/
theorem new_open_failure_not_registered_witness :
    "q" ≠ "" ∧ (0 : Int) ≤ 1 ∧ (1 : Int) < (DefaultLevels.length : Int) ∧
    (New none "q" DefaultLevels 1 0 10 1000 true emptyWorld).1 = none :=
  ⟨by decide, by decide, by decide,
   (new_open_failure_not_registered "q" DefaultLevels 1 0 10 1000 emptyWorld
     (by decide) (by decide) (by decide)).1⟩

/-- Claim C8: `New` validates the initial threshold index: when it is
negative or at least the number of level labels, `New` returns an error
and registers no logger under the name; every successfully registered
logger's stored threshold index is within the bounds of its level-label
sequence. -/
theorem new_validates_level (prev : Option Logger) (filePath : String)
    (levels : List String) (level flags checkLogSize maxLogSize : Int)
    (openFails : Bool) (w : World) :
    ((level < 0 ∨ (levels.length : Int) ≤ level) →
      (New prev filePath levels level flags checkLogSize maxLogSize openFails
        w).1 = none ∧
      (New prev filePath levels level flags checkLogSize maxLogSize openFails
        w).2.2.isSome = true) ∧
    (∀ lg,
      (New prev filePath levels level flags checkLogSize maxLogSize openFails
        w).1 = some lg →
      0 ≤ lg.level ∧ lg.level < (lg.levels.length : Int)) := by
  obtain ⟨w1, hw⟩ : ∃ w1,
      New prev filePath levels level flags checkLogSize maxLogSize openFails w
        = New none filePath levels level flags checkLogSize maxLogSize
            openFails w1 := by
    cases prev
    · exact ⟨w, rfl⟩
    · exact ⟨_, rfl⟩
  rw [hw]
  constructor
  · intro hv
    simp [New, if_pos hv]
  · intro lg hlg
    by_cases hv : level < 0 ∨ (levels.length : Int) ≤ level
    · simp only [New, if_pos hv] at hlg
      cases hlg
    · have hv2 := hv
      push_neg at hv2
      simp only [New, if_neg hv] at hlg
      rcases hI : Logger.initializeRotation
          { checkLogSize := checkLogSize, flags := flags, level := level,
            levels := levels, levelMaxWidth := 0, loggers := none,
            file := none, filePath := filePath, maxLogSize := maxLogSize,
            rotation := 0, writesSinceCheckRotate := 0 } w1 with ⟨lgI, wI⟩
      rw [hI] at hlg
      dsimp only at hlg
      have hlevI : lgI.level = level ∧ lgI.levels = levels := by
        have : lgI = (Logger.initializeRotation
            { checkLogSize := checkLogSize, flags := flags, level := level,
              levels := levels, levelMaxWidth := 0, loggers := none,
              file := none, filePath := filePath, maxLogSize := maxLogSize,
              rotation := 0, writesSinceCheckRotate := 0 } w1).1 := by
          rw [hI]
        rw [this, initializeRotation_fst]
        exact ⟨rfl, rfl⟩
      rcases hO : Logger.openFileAndInitialize openFails lgI wI with
        ⟨lgO, wO, e⟩
      rw [hO] at hlg
      have hOf := openFileAndInitialize_fst_fields openFails lgI wI
      rw [hO] at hOf
      rcases e with _ | e
      · dsimp only at hlg
        have hlg2 : lg = { lgO with
            levelMaxWidth := levelMaxWidthCalc lgO.levels } := by
          cases hlg
          rfl
        rw [hlg2]
        have h1 : lgO.level = level := by rw [hOf.1, hlevI.1]
        have h2 : lgO.levels = levels := by rw [hOf.2.1, hlevI.2]
        simp only [h1, h2]
        exact hv2
      · cases hlg

/-- Witness for C8: both directions of the validation theorem at
concrete inputs — a negative level is rejected, and the logger
registered by a valid construction has an in-bounds threshold. -/
theorem new_validates_level_witness :
    (New none "p" DefaultLevels (-1) 0 10 1000 false emptyWorld).1 = none ∧
    (0 ≤ sampleLogger.level ∧
      sampleLogger.level < (sampleLogger.levels.length : Int)) :=
  ⟨((new_validates_level none "p" DefaultLevels (-1) 0 10 1000 false
      emptyWorld).1 (Or.inl (by decide))).1,
   (new_validates_level none "p" DefaultLevels 1 0 10 1000 false
      emptyWorld).2 sampleLogger rfl⟩

/-- A sample logger whose rotation file is over the small maximum,
used to exercise rotation concretely. -/
def rotLogger : Logger := { sampleLogger with maxLogSize := 2 }

/-- Claim C2: `checkSizeAndRotate` on a file-backed logger resets the
write counter and stats the active slot; when the size strictly exceeds
`maxLogSize`, the slot advances cyclically (0 to 1, 1 to 0), the file
occupying the new slot is deleted whether or not it exists, the new
slot is opened as a fresh empty active file, the previous handle's file
is closed, the switched-away file keeps its content, and no error is
reported; when the size is at/below the maximum nothing but the counter
changes. -/
theorem check_size_and_rotate_spec (l : Logger) (w : World) (h : Handle)
    (c : String) (hfp : l.filePath ≠ "") (hrot : l.rotation < maxRotations)
    (hfile : l.file = some h) (hopen : h.closed = false)
    (hstat : w.get l.rotation = some c) :
    ((Logger.checkSizeAndRotate false l w).1).writesSinceCheckRotate = 0 ∧
    ((c.length : Int) > l.maxLogSize →
      ((Logger.checkSizeAndRotate false l w).1).rotation = 1 - l.rotation ∧
      ((Logger.checkSizeAndRotate false l w).2.1).get (1 - l.rotation) =
        some "" ∧
      ((Logger.checkSizeAndRotate false l w).1).file =
        some ⟨Target.fileSlot (1 - l.rotation), false⟩ ∧
      ((Logger.checkSizeAndRotate false l w).1).loggers =
        some (Target.fileSlot (1 - l.rotation)) ∧
      ((Logger.checkSizeAndRotate false l w).2.1).get l.rotation =
        w.get l.rotation ∧
      ((Logger.checkSizeAndRotate false l w).2.1).closedEvents =
        w.closedEvents ++ [h.target] ∧
      (Logger.checkSizeAndRotate false l w).2.2 = none) ∧
    ((c.length : Int) ≤ l.maxLogSize →
      Logger.checkSizeAndRotate false l w =
        ({ l with writesSinceCheckRotate := 0 }, w, none)) := by
  refine ⟨checkSizeAndRotate_counter false l w hfp, ?_, ?_⟩
  · intro hsz
    rcases l with ⟨ck, fl, lv, ls, mw, lgs, f, fp, ms, rot, wr⟩
    rcases h with ⟨t, cl⟩
    simp only at hfp hrot hfile hstat hsz ⊢
    subst hfile
    simp only at hopen
    subst hopen
    rcases w with ⟨s0, s1, ev⟩
    have hrot2 : rot = 0 ∨ rot = 1 := by
      have : maxRotations = 2 := rfl
      omega
    rcases hrot2 with rfl | rfl <;>
      simp_all [Logger.checkSizeAndRotate, Logger.openFileAndInitialize,
        Logger.Shutdown, Logger.initializeLoggers, Handle.close,
        World.get, World.set, maxRotations, hsz]
  · intro hsz
    have hns : ¬ ((c.length : Int) > l.maxLogSize) := not_lt.mpr hsz
    unfold Logger.checkSizeAndRotate
    rw [if_neg hfp]
    dsimp only
    rcases hw : World.get w l.rotation with _ | c2
    · rw [hw] at hstat
      cases hstat
    · rw [hw] at hstat
      cases hstat
      dsimp only
      rw [if_neg hns]

/-- Witness for C2: `rotLogger` (slot 0 active, max size 2) with a
3-byte slot-0 file rotates to slot 1. -/
theorem check_size_and_rotate_spec_witness :
    ((3 : Int) > rotLogger.maxLogSize) ∧
    ((Logger.checkSizeAndRotate false rotLogger
        ⟨some "abc", none, []⟩).1).rotation = 1 :=
  ⟨by decide,
   ((check_size_and_rotate_spec rotLogger ⟨some "abc", none, []⟩
       ⟨Target.fileSlot 0, false⟩ "abc" (by decide) (by decide) rfl rfl
       rfl).2.1 (by decide)).1⟩

/-- Plumbing for `New` on a valid level: given the results of slot
selection and of opening, `New` registers the opened logger with its
computed label width. -/
theorem new_register_eq (filePath : String) (levels : List String)
    (level flags checkLogSize maxLogSize : Int) (openFails : Bool)
    (w : World) (hv : ¬ (level < 0 ∨ (levels.length : Int) ≤ level))
    (lgI : Logger) (wI : World)
    (hIR : Logger.initializeRotation
      { checkLogSize := checkLogSize, flags := flags, level := level,
        levels := levels, levelMaxWidth := 0, loggers := none, file := none,
        filePath := filePath, maxLogSize := maxLogSize, rotation := 0,
        writesSinceCheckRotate := 0 } w = (lgI, wI))
    (lgO : Logger) (wO : World)
    (hO : Logger.openFileAndInitialize openFails lgI wI = (lgO, wO, none)) :
    New none filePath levels level flags checkLogSize maxLogSize openFails w
      = (some { lgO with levelMaxWidth := levelMaxWidthCalc lgO.levels },
         wO, none) := by
  simp only [New, if_neg hv]
  rw [hIR]
  dsimp only
  rw [hO]

/-- Claim C3: at construction of a file-backed logger, slots are scanned
in order 0 then 1 and the first slot whose file is absent, or strictly
smaller than `maxLogSize`, is chosen; an absent file is created empty, an
existing one is opened in append mode with its content preserved; when
both slots are at/over the maximum, slot 0 is chosen and its file is
deleted (reopened empty). -/
theorem new_rotation_selection (filePath : String) (levels : List String)
    (level flags checkLogSize maxLogSize : Int) (w : World)
    (hfp : filePath ≠ "") (h0 : 0 ≤ level)
    (h1 : level < (levels.length : Int)) :
    (w.get 0 = none →
      ∃ lg, (New none filePath levels level flags checkLogSize maxLogSize
          false w).1 = some lg ∧ lg.rotation = 0 ∧
        ((New none filePath levels level flags checkLogSize maxLogSize
          false w).2.1).get 0 = some "" ∧
        ((New none filePath levels level flags checkLogSize maxLogSize
          false w).2.1).get 1 = w.get 1) ∧
    (∀ c0, w.get 0 = some c0 → (c0.length : Int) < maxLogSize →
      ∃ lg, (New none filePath levels level flags checkLogSize maxLogSize
          false w).1 = some lg ∧ lg.rotation = 0 ∧
        ((New none filePath levels level flags checkLogSize maxLogSize
          false w).2.1).get 0 = some c0 ∧
        ((New none filePath levels level flags checkLogSize maxLogSize
          false w).2.1).get 1 = w.get 1) ∧
    (∀ c0, w.get 0 = some c0 → maxLogSize ≤ (c0.length : Int) →
      w.get 1 = none →
      ∃ lg, (New none filePath levels level flags checkLogSize maxLogSize
          false w).1 = some lg ∧ lg.rotation = 1 ∧
        ((New none filePath levels level flags checkLogSize maxLogSize
          false w).2.1).get 1 = some "" ∧
        ((New none filePath levels level flags checkLogSize maxLogSize
          false w).2.1).get 0 = some c0) ∧
    (∀ c0 c1, w.get 0 = some c0 → maxLogSize ≤ (c0.length : Int) →
      w.get 1 = some c1 → (c1.length : Int) < maxLogSize →
      ∃ lg, (New none filePath levels level flags checkLogSize maxLogSize
          false w).1 = some lg ∧ lg.rotation = 1 ∧
        ((New none filePath levels level flags checkLogSize maxLogSize
          false w).2.1).get 1 = some c1 ∧
        ((New none filePath levels level flags checkLogSize maxLogSize
          false w).2.1).get 0 = some c0) ∧
    (∀ c0 c1, w.get 0 = some c0 → maxLogSize ≤ (c0.length : Int) →
      w.get 1 = some c1 → maxLogSize ≤ (c1.length : Int) →
      ∃ lg, (New none filePath levels level flags checkLogSize maxLogSize
          false w).1 = some lg ∧ lg.rotation = 0 ∧
        ((New none filePath levels level flags checkLogSize maxLogSize
          false w).2.1).get 0 = some "" ∧
        ((New none filePath levels level flags checkLogSize maxLogSize
          false w).2.1).get 1 = w.get 1) := by
  have hv : ¬ (level < 0 ∨ (levels.length : Int) ≤ level) := by
    push_neg
    exact ⟨h0, h1⟩
  have hrange : List.range maxRotations = [0, 1] := rfl
  refine ⟨?_, ?_, ?_, ?_, ?_⟩
  · intro hg0
    have hfar : firstAvailableRotation maxLogSize w (List.range maxRotations)
        = some 0 := by
      rw [hrange]
      simp [firstAvailableRotation, hg0]
    have hIR : Logger.initializeRotation
        { checkLogSize := checkLogSize, flags := flags, level := level,
          levels := levels, levelMaxWidth := 0, loggers := none, file := none,
          filePath := filePath, maxLogSize := maxLogSize, rotation := 0,
          writesSinceCheckRotate := 0 } w =
        ({ checkLogSize := checkLogSize, flags := flags, level := level,
           levels := levels, levelMaxWidth := 0, loggers := none,
           file := none, filePath := filePath, maxLogSize := maxLogSize,
           rotation := 0, writesSinceCheckRotate := 0 }, w) := by
      unfold Logger.initializeRotation
      dsimp only
      rw [hfar]
    have hNew := new_register_eq filePath levels level flags checkLogSize
      maxLogSize false w hv _ _ hIR _ _
      (openFileAndInitialize_fresh_absent _ w hfp rfl hg0)
    rw [hNew]
    exact ⟨_, rfl, rfl, rfl, rfl⟩
  · intro c0 hg0 hsmall
    have hfar : firstAvailableRotation maxLogSize w (List.range maxRotations)
        = some 0 := by
      rw [hrange]
      simp [firstAvailableRotation, hg0, hsmall]
    have hIR : Logger.initializeRotation
        { checkLogSize := checkLogSize, flags := flags, level := level,
          levels := levels, levelMaxWidth := 0, loggers := none, file := none,
          filePath := filePath, maxLogSize := maxLogSize, rotation := 0,
          writesSinceCheckRotate := 0 } w =
        ({ checkLogSize := checkLogSize, flags := flags, level := level,
           levels := levels, levelMaxWidth := 0, loggers := none,
           file := none, filePath := filePath, maxLogSize := maxLogSize,
           rotation := 0, writesSinceCheckRotate := 0 }, w) := by
      unfold Logger.initializeRotation
      dsimp only
      rw [hfar]
    have hNew := new_register_eq filePath levels level flags checkLogSize
      maxLogSize false w hv _ _ hIR _ _
      (openFileAndInitialize_fresh_present _ w c0 hfp rfl hg0)
    rw [hNew]
    exact ⟨_, rfl, rfl, hg0, rfl⟩
  · intro c0 hg0 hbig hg1
    have hfar : firstAvailableRotation maxLogSize w (List.range maxRotations)
        = some 1 := by
      rw [hrange]
      simp [firstAvailableRotation, hg0, hg1, not_lt.mpr hbig]
    have hIR : Logger.initializeRotation
        { checkLogSize := checkLogSize, flags := flags, level := level,
          levels := levels, levelMaxWidth := 0, loggers := none, file := none,
          filePath := filePath, maxLogSize := maxLogSize, rotation := 0,
          writesSinceCheckRotate := 0 } w =
        ({ checkLogSize := checkLogSize, flags := flags, level := level,
           levels := levels, levelMaxWidth := 0, loggers := none,
           file := none, filePath := filePath, maxLogSize := maxLogSize,
           rotation := 1, writesSinceCheckRotate := 0 }, w) := by
      unfold Logger.initializeRotation
      dsimp only
      rw [hfar]
    have hNew := new_register_eq filePath levels level flags checkLogSize
      maxLogSize false w hv _ _ hIR _ _
      (openFileAndInitialize_fresh_absent _ w hfp rfl hg1)
    rw [hNew]
    exact ⟨_, rfl, rfl, rfl, hg0⟩
  · intro c0 c1 hg0 hbig hg1 hsmall
    have hfar : firstAvailableRotation maxLogSize w (List.range maxRotations)
        = some 1 := by
      rw [hrange]
      simp [firstAvailableRotation, hg0, hg1, hsmall, not_lt.mpr hbig]
    have hIR : Logger.initializeRotation
        { checkLogSize := checkLogSize, flags := flags, level := level,
          levels := levels, levelMaxWidth := 0, loggers := none, file := none,
          filePath := filePath, maxLogSize := maxLogSize, rotation := 0,
          writesSinceCheckRotate := 0 } w =
        ({ checkLogSize := checkLogSize, flags := flags, level := level,
           levels := levels, levelMaxWidth := 0, loggers := none,
           file := none, filePath := filePath, maxLogSize := maxLogSize,
           rotation := 1, writesSinceCheckRotate := 0 }, w) := by
      unfold Logger.initializeRotation
      dsimp only
      rw [hfar]
    have hNew := new_register_eq filePath levels level flags checkLogSize
      maxLogSize false w hv _ _ hIR _ _
      (openFileAndInitialize_fresh_present _ w c1 hfp rfl hg1)
    rw [hNew]
    exact ⟨_, rfl, rfl, hg1, hg0⟩
  · intro c0 c1 hg0 hbig0 hg1 hbig1
    have hfar : firstAvailableRotation maxLogSize w (List.range maxRotations)
        = none := by
      rw [hrange]
      simp [firstAvailableRotation, hg0, hg1, not_lt.mpr hbig0,
        not_lt.mpr hbig1]
    have hIR : Logger.initializeRotation
        { checkLogSize := checkLogSize, flags := flags, level := level,
          levels := levels, levelMaxWidth := 0, loggers := none, file := none,
          filePath := filePath, maxLogSize := maxLogSize, rotation := 0,
          writesSinceCheckRotate := 0 } w =
        ({ checkLogSize := checkLogSize, flags := flags, level := level,
           levels := levels, levelMaxWidth := 0, loggers := none,
           file := none, filePath := filePath, maxLogSize := maxLogSize,
           rotation := 0, writesSinceCheckRotate := 0 }, w.set 0 none) := by
      unfold Logger.initializeRotation
      dsimp only
      rw [hfar]
    have hNew := new_register_eq filePath levels level flags checkLogSize
      maxLogSize false w hv _ _ hIR _ _
      (openFileAndInitialize_fresh_absent _ (w.set 0 none) hfp rfl rfl)
    rw [hNew]
    exact ⟨_, rfl, rfl, rfl, rfl⟩

/-- A world whose slot-0 file already holds two bytes. -/
def abWorld : World := ⟨some "ab", none, []⟩

/-- Witness for C3: an existing small slot-0 file is appended to
(content preserved) by a fresh construction. -/
theorem new_rotation_selection_witness :
    abWorld.get 0 = some "ab" ∧
    (("ab".length : Int) < 1000) ∧
    ∃ lg, (New none "p" DefaultLevels 1 0 10 1000 false abWorld).1 =
        some lg ∧ lg.rotation = 0 ∧
      ((New none "p" DefaultLevels 1 0 10 1000 false abWorld).2.1).get 0 =
        some "ab" ∧
      ((New none "p" DefaultLevels 1 0 10 1000 false abWorld).2.1).get 1 =
        abWorld.get 1 :=
  ⟨rfl, by decide,
   (new_rotation_selection "p" DefaultLevels 1 0 10 1000 abWorld
       (by decide) (by decide) (by decide)).2.1 "ab" rfl (by decide)⟩

end Logh
